import Mathlib

/-!
Shallow embedding of `src/components/slider/index.tsx` (the antd `Slider`
adapter over the `rc-slider` primitives), together with proofs of its
specified behaviour.

Conventions of the embedding:
* A JavaScript value that can be `undefined`, `true` or `false` is an
  `Option Bool` (`none` = `undefined`); `truthy` is JS truthiness on it and
  `jsOr` / `jsAnd` are the JS `||` / `&&` operators restricted to that type.
* React nodes and strings produced for display are `String`.
* Caller-supplied callback functions that the adapter only forwards
  (popup-container resolvers, change handlers) are opaque `Nat` tokens.
* The ambient `ConfigContext` (prefix resolution, layout direction, default
  popup container) is an explicit record argument.
-/

/-- JS truthiness of an optional boolean (`undefined` is falsy). -/
def truthy : Option Bool → Bool
  | none => false
  | some b => b

/-- JS `a || b` on optional booleans: returns `a` when `a` is truthy, else `b`. -/
def jsOr (a b : Option Bool) : Option Bool :=
  if truthy a then a else b

/-- JS `a && b` on optional booleans: returns `b` when `a` is truthy, else `a`. -/
def jsAnd (a b : Option Bool) : Option Bool :=
  if truthy a then b else a

/-- Layout direction from the ambient config context (`direction?: 'ltr' | 'rtl'`). -/
inductive Direction
  | ltr
  | rtl
  | unset
deriving DecidableEq, Repr

/-- Tooltip placements (`TooltipPlacement` from `../tooltip`). -/
inductive Placement
  | top
  | left
  | right
  | bottom
  | topLeft
  | topRight
  | bottomLeft
  | bottomRight
deriving DecidableEq, Repr

/-- The `step` option: `step?: null | number` — absent, explicit `null`, or a number. -/
inductive StepProp
  | unset
  | null
  | num (n : Int)
deriving DecidableEq, Repr

/-- The `range` option: absent (`SliderSingleProps` without it), literal `false`,
literal `true`, or an object `{ draggableTrack?: boolean }`. -/
inductive RangeProp
  | unset
  | boolFalse
  | boolTrue
  | obj (draggableTrack : Option Bool)
deriving DecidableEq, Repr

/-- JS truthiness of the `range` option (`if (range)`): `false` and `undefined`
are falsy; `true` and any object (even `{}`) are truthy. -/
def RangeProp.truthy : RangeProp → Bool
  | .unset => false
  | .boolFalse => false
  | .boolTrue => true
  | .obj _ => true

/-- The `tipFormatter` option: `tipFormatter?: null | ((value?: number) => ReactNode)`.
A formatter function maps an optional numeric value to a rendered node (a `String`). -/
inductive TipFormatterProp
  | unset
  | null
  | fn (f : Option Int → String)

/-- Opaque token standing for a caller-supplied popup-container resolver or
change callback; the adapter only forwards these, never calls them. -/
abbrev CallbackToken := Nat

/-- The `tooltipProps` bag (`Partial<TooltipProps>`), restricted to the tooltip
attributes this component computes; `some v` means the caller put that key in
the bag, `none` that the key is absent. -/
structure TooltipBag where
  prefixCls : Option String := none
  title : Option String := none
  visible : Option Bool := none
  placement : Option Placement := none
  overlayClassName : Option String := none
  getPopupContainer : Option CallbackToken := none
  transitionName : Option String := none

/-- `Slider.defaultProps.tipFormatter`:
`value => typeof value === 'number' ? value.toString() : ''`. -/
def defaultTipFormatter : Option Int → String
  | some n => toString n
  | none => ""

/-- The formatter actually seen inside the component: React fills in
`Slider.defaultProps.tipFormatter` when the caller omits the prop, so the
effective value is `none` exactly for an explicit caller-supplied `null`. -/
def effectiveTipFormatter : TipFormatterProp → Option (Option Int → String)
  | .unset => some defaultTipFormatter
  | .null => none
  | .fn f => some f

/-- The ambient `ConfigContext` fields this component reads. -/
structure ConfigContext where
  rootPrefixCls : String
  direction : Direction
  getPopupContainer : Option CallbackToken

/-- Modelled from the spec: the ambient theming lookup `getPrefixCls` of the
config provider (its implementation lives outside `src/`): resolves a
style-class name for a sub-component from the root name, allowing a caller
override to win. -/
def getPrefixCls (ctx : ConfigContext) (suffixCls : String) (customizePrefixCls : Option String) : String :=
  customizePrefixCls.getD (ctx.rootPrefixCls ++ "-" ++ suffixCls)

/-- Modelled from the spec: `getTransitionName` from `../_util/motion` (its
implementation lives outside `src/`): the transition name is derived from the
ambient root name combined with a fixed motion identifier, unless the caller
supplies an explicit transition name, which wins. -/
def getTransitionName (rootPrefixCls motionName : String) (transitionName : Option String) : String :=
  transitionName.getD (rootPrefixCls ++ "-" ++ motionName)

/-- The `classnames` call `classNames(className, \x7b [`${prefixCls}-rtl`]: direction === 'rtl' \x7d)`:
joins the caller class (when present) with the conditional rtl modifier class. -/
def classNamesRtl (className : Option String) (rtlCls : String) (isRtl : Bool) : String :=
  String.intercalate " "
    ((match className with | some s => [s] | none => []) ++ (if isRtl then [rtlCls] else []))

/-- `Visibles`: the per-handle tooltip visibility map, `\x7b [index: number]: boolean \x7d`.
`none` means the index was never written (no key in the object). -/
def Visibles := Nat → Option Bool

/-- The empty visibility map, the `useState` initial value `\x7b\x7d`. -/
def emptyVisibles : Visibles := fun _ => none

/-- `toggleTooltipVisible`: `setVisibles(prev => (\x7b ...prev, [index]: visible \x7d))` —
writes `visible` at `index` and keeps every other entry of `prev`. -/
def toggleTooltipVisible (index : Nat) (visible : Bool) (prev : Visibles) : Visibles :=
  fun j => if j = index then some visible else prev j

/-- The pointer events wired on the rendered handle; these are the only
callbacks in the component that write component state. -/
inductive HandleEvent
  | mouseEnter (index : Nat)
  | mouseLeave (index : Nat)
deriving DecidableEq, Repr

/-- The handle index an event targets. -/
def HandleEvent.targetIndex : HandleEvent → Nat
  | .mouseEnter i => i
  | .mouseLeave i => i

/-- State transition of one handle event:
`onMouseEnter=\x7b() => toggleTooltipVisible(index, true)\x7d` and
`onMouseLeave=\x7b() => toggleTooltipVisible(index, false)\x7d`. -/
def applyHandleEvent : HandleEvent → Visibles → Visibles
  | .mouseEnter i, m => toggleTooltipVisible i true m
  | .mouseLeave i, m => toggleTooltipVisible i false m

/-- The visibility map after a sequence of handle events. -/
def applyHandleEvents (evs : List HandleEvent) (m : Visibles) : Visibles :=
  evs.foldl (fun acc e => applyHandleEvent e acc) m

/-- `HandleGeneratorInfo`: the descriptor the slider primitive hands to the
handle generator. -/
structure HandleGeneratorInfo where
  value : Option Int
  dragging : Option Bool
  index : Nat

/-- `const isTipFormatter = tipFormatter ? visibles[index] || dragging : false;` -/
def isTipFormatterVal (tipFormatter : Option (Option Int → String)) (visibles : Visibles)
    (index : Nat) (dragging : Option Bool) : Option Bool :=
  match tipFormatter with
  | some _ => jsOr (visibles index) dragging
  | none => some false

/-- `const visible = tooltipVisible || (tooltipVisible === undefined && isTipFormatter);` -/
def tooltipVisibleVal (tooltipVisible : Option Bool) (tipFormatter : Option (Option Int → String))
    (visibles : Visibles) (index : Nat) (dragging : Option Bool) : Option Bool :=
  jsOr tooltipVisible
    (jsAnd (some tooltipVisible.isNone) (isTipFormatterVal tipFormatter visibles index dragging))

/-- `getTooltipPlacement`: explicit placement wins; otherwise `'top'` when not
vertical; otherwise `'left'` under rtl and `'right'` otherwise. -/
def getTooltipPlacement (direction : Direction) (tooltipPlacement : Option Placement)
    (vertical : Option Bool) : Placement :=
  match tooltipPlacement with
  | some p => p
  | none =>
    if !truthy vertical then .top
    else if direction = .rtl then .left else .right

/-- The attributes the component passes to `SliderTooltip` after JSX merging:
the explicitly written attributes, overridden by the `\x7b...tooltipProps\x7d`
spread, with `transitionName` written after the spread. -/
structure SliderTooltipAttrs where
  prefixCls : String
  title : String
  visible : Option Bool
  placement : Placement
  overlayClassName : String
  getPopupContainer : Option CallbackToken
  transitionName : String

/-- The slider configuration surface (`SliderSingleProps | SliderRangeProps`).
Fields the adapter never inspects are carried so that forwarding and
non-mutation can be stated about them. -/
structure SliderProps where
  prefixCls : Option String := none
  tooltipPrefixCls : Option String := none
  reverse : Option Bool := none
  min : Option Int := none
  max : Option Int := none
  step : StepProp := .unset
  marks : Option (List (Int × String)) := none
  dots : Option Bool := none
  included : Option Bool := none
  disabled : Option Bool := none
  vertical : Option Bool := none
  tipFormatter : TipFormatterProp := .unset
  className : Option String := none
  id : Option String := none
  style : Option String := none
  tooltipVisible : Option Bool := none
  tooltipPlacement : Option Placement := none
  tooltipProps : TooltipBag := {}
  getTooltipPopupContainer : Option CallbackToken := none
  autoFocus : Option Bool := none
  range : RangeProp := .unset
  value : Option (List Int) := none
  defaultValue : Option (List Int) := none
  onChange : Option CallbackToken := none
  onAfterChange : Option CallbackToken := none
  handleStyle : Option String := none
  trackStyle : Option String := none

/-- `handleWithTooltip`, projected to the `SliderTooltip` attributes it builds
(the wrapped `RcHandle` child is covered by the event model above). Mirrors the
JSX attribute order: explicit attributes first, then the `tooltipProps` spread
(whose present keys override them), then `transitionName` last. -/
def handleWithTooltip (ctx : ConfigContext) (props : SliderProps) (visibles : Visibles)
    (tooltipPrefixCls prefixCls : String) (info : HandleGeneratorInfo) : SliderTooltipAttrs :=
  let tipFormatter := effectiveTipFormatter props.tipFormatter
  let bag := props.tooltipProps
  let visible := tooltipVisibleVal props.tooltipVisible tipFormatter visibles info.index info.dragging
  let rootPrefixCls := ctx.rootPrefixCls
  let transitionName := getTransitionName rootPrefixCls "zoom-down" bag.transitionName
  { prefixCls := bag.prefixCls.getD tooltipPrefixCls
    title := bag.title.getD (match tipFormatter with | some f => f info.value | none => "")
    visible := match bag.visible with | some b => some b | none => visible
    placement := bag.placement.getD (getTooltipPlacement ctx.direction props.tooltipPlacement props.vertical)
    overlayClassName := bag.overlayClassName.getD (prefixCls ++ "-tooltip")
    getPopupContainer :=
      match bag.getPopupContainer with
      | some r => some r
      | none => match props.getTooltipPopupContainer with
        | some r => some r
        | none => ctx.getPopupContainer
    transitionName := transitionName }

/-- The `restProps` object produced by
`const \x7b prefixCls, tooltipPrefixCls, range, className, ...restProps \x7d = props;`:
a fresh object holding every remaining own property of `props`. -/
structure RestProps where
  reverse : Option Bool
  min : Option Int
  max : Option Int
  step : StepProp
  marks : Option (List (Int × String))
  dots : Option Bool
  included : Option Bool
  disabled : Option Bool
  vertical : Option Bool
  tipFormatter : TipFormatterProp
  id : Option String
  style : Option String
  tooltipVisible : Option Bool
  tooltipPlacement : Option Placement
  tooltipProps : TooltipBag
  getTooltipPopupContainer : Option CallbackToken
  autoFocus : Option Bool
  value : Option (List Int)
  defaultValue : Option (List Int)
  onChange : Option CallbackToken
  onAfterChange : Option CallbackToken
  handleStyle : Option String
  trackStyle : Option String

/-- Rest-destructuring: copy the remaining fields of `props` into the fresh
`restProps` object. -/
def destructRest (p : SliderProps) : RestProps :=
  { reverse := p.reverse, min := p.min, max := p.max, step := p.step, marks := p.marks
    dots := p.dots, included := p.included, disabled := p.disabled, vertical := p.vertical
    tipFormatter := p.tipFormatter, id := p.id, style := p.style
    tooltipVisible := p.tooltipVisible, tooltipPlacement := p.tooltipPlacement
    tooltipProps := p.tooltipProps, getTooltipPopupContainer := p.getTooltipPopupContainer
    autoFocus := p.autoFocus, value := p.value, defaultValue := p.defaultValue
    onChange := p.onChange, onAfterChange := p.onAfterChange
    handleStyle := p.handleStyle, trackStyle := p.trackStyle }

/-- The two JS objects alive in the render body: the caller's `props` object
and the fresh `restProps` copy. Assignments in the body are modelled as
updates to the field of the object they target. -/
structure RenderObjects where
  callerProps : SliderProps
  restProps : RestProps

/-- The state of the two objects right after the destructuring line. -/
def initObjects (p : SliderProps) : RenderObjects :=
  { callerProps := p, restProps := destructRest p }

/-- `if (direction === 'rtl' && !restProps.vertical) restProps.reverse = !restProps.reverse;`
— the only assignment in the render body; it targets `restProps`. -/
def applyRtlReverse (ctx : ConfigContext) (s : RenderObjects) : RenderObjects :=
  if ctx.direction = .rtl && !truthy s.restProps.vertical then
    { s with restProps := { s.restProps with reverse := some (!truthy s.restProps.reverse) } }
  else s

/-- The props reaching the rendered `rc-slider` primitive: the `restProps`
spread plus the explicitly written `step`, `className` and `prefixCls`
attributes (written after the spread, so they win). -/
structure RcForwardedProps where
  reverse : Option Bool
  min : Option Int
  max : Option Int
  step : StepProp
  marks : Option (List (Int × String))
  dots : Option Bool
  included : Option Bool
  disabled : Option Bool
  vertical : Option Bool
  tipFormatter : TipFormatterProp
  id : Option String
  style : Option String
  tooltipVisible : Option Bool
  tooltipPlacement : Option Placement
  tooltipProps : TooltipBag
  getTooltipPopupContainer : Option CallbackToken
  autoFocus : Option Bool
  value : Option (List Int)
  defaultValue : Option (List Int)
  onChange : Option CallbackToken
  onAfterChange : Option CallbackToken
  handleStyle : Option String
  trackStyle : Option String
  className : String
  prefixCls : String

/-- Assemble the forwarded props from the (possibly reverse-adjusted)
`restProps` and the explicit attributes. -/
def buildForwarded (r : RestProps) (cls prefixCls : String) : RcForwardedProps :=
  { reverse := r.reverse, min := r.min, max := r.max, step := r.step, marks := r.marks
    dots := r.dots, included := r.included, disabled := r.disabled, vertical := r.vertical
    tipFormatter := r.tipFormatter, id := r.id, style := r.style
    tooltipVisible := r.tooltipVisible, tooltipPlacement := r.tooltipPlacement
    tooltipProps := r.tooltipProps, getTooltipPopupContainer := r.getTooltipPopupContainer
    autoFocus := r.autoFocus, value := r.value, defaultValue := r.defaultValue
    onChange := r.onChange, onAfterChange := r.onAfterChange
    handleStyle := r.handleStyle, trackStyle := r.trackStyle
    className := cls, prefixCls := prefixCls }

/-- Which primitive the component returns: `RcSlider` (single) or `RcRange`
(range, with its extra `draggableTrack` attribute). -/
inductive Rendered
  | single (p : RcForwardedProps)
  | range (p : RcForwardedProps) (draggableTrack : Option Bool)

/-- The render body of the `Slider` component, from the destructuring line to
the returned element. -/
def renderSlider (ctx : ConfigContext) (props : SliderProps) : Rendered :=
  let prefixCls := getPrefixCls ctx "slider" props.prefixCls
  let cls := classNamesRtl props.className (prefixCls ++ "-rtl") (ctx.direction = .rtl)
  let s := applyRtlReverse ctx (initObjects props)
  let draggableTrack : Option Bool :=
    match props.range with
    | .obj d => d
    | _ => none
  if props.range.truthy then
    .range (buildForwarded s.restProps cls prefixCls) draggableTrack
  else
    .single (buildForwarded s.restProps cls prefixCls)

/-- The props object forwarded to whichever primitive was rendered. -/
def Rendered.forwarded : Rendered → RcForwardedProps
  | .single p => p
  | .range p _ => p

/-- The render pass as seen from the caller: the caller's `props` object after
the body has run, paired with the rendered element. -/
def renderPass (ctx : ConfigContext) (props : SliderProps) : SliderProps × Rendered :=
  let s := applyRtlReverse ctx (initObjects props)
  (s.callerProps, renderSlider ctx props)

/-- Whether the rendered element is the single-value primitive (`RcSlider`). -/
def Rendered.isSingle : Rendered → Bool
  | .single _ => true
  | .range _ _ => false

/-- Whether the rendered element is the range primitive (`RcRange`). -/
def Rendered.isRange : Rendered → Bool
  | .single _ => false
  | .range _ _ => true

/-- The `draggableTrack` attribute received by the rendered range primitive
(`none` for the single primitive, which has no such attribute). -/
def Rendered.draggableTrack : Rendered → Option Bool
  | .single _ => none
  | .range _ d => d

theorem truthy_some (b : Bool) : truthy (some b) = b := rfl

theorem truthy_jsOr (a b : Option Bool) : truthy (jsOr a b) = (truthy a || truthy b) := by
  unfold jsOr
  by_cases h : truthy a = true
  · simp [h]
  · simp only [Bool.not_eq_true] at h
    simp [h]

theorem truthy_jsAnd (a b : Option Bool) : truthy (jsAnd a b) = (truthy a && truthy b) := by
  unfold jsAnd
  by_cases h : truthy a = true
  · simp [h]
  · simp only [Bool.not_eq_true] at h
    simp [h]

theorem truthy_eq_decide (a : Option Bool) : truthy a = decide (a = some true) := by
  rcases a with _ | b
  · rfl
  · cases b <;> rfl

theorem truthy_isTipFormatterVal (fmt : Option (Option Int → String)) (vis : Visibles)
    (idx : Nat) (drag : Option Bool) :
    truthy (isTipFormatterVal fmt vis idx drag) =
      (fmt.isSome && (truthy (vis idx) || truthy drag)) := by
  cases fmt
  · simp [isTipFormatterVal, truthy]
  · simp [isTipFormatterVal, truthy_jsOr]

/-- C1: the tooltip visible flag computed by `handleWithTooltip` is truthy
exactly when the `tooltipVisible` option is truthy, or `tooltipVisible` is
undefined and a non-null `tipFormatter` is configured and the handle is
currently hovered (its visibility-map entry is `true`) or currently dragged;
in particular `tooltipVisible = some false` forces the tooltip hidden even
while hovering or dragging, and `some true` forces it visible with no
formatter and no hover/drag. -/
theorem tooltipVisibleVal_spec (ttv : Option Bool) (fmt : Option (Option Int → String))
    (vis : Visibles) (idx : Nat) (drag : Option Bool) :
    truthy (tooltipVisibleVal ttv fmt vis idx drag) =
      (decide (ttv = some true) ||
        (ttv.isNone && fmt.isSome &&
          (decide (vis idx = some true) || decide (drag = some true)))) := by
  unfold tooltipVisibleVal
  rw [truthy_jsOr, truthy_jsAnd, truthy_isTipFormatterVal]
  rw [truthy_eq_decide ttv, truthy_eq_decide (vis idx), truthy_eq_decide drag]
  simp [truthy, Bool.and_assoc]

/-- C5: tooltip placement resolution: an explicit `tooltipPlacement` option is
returned as-is; otherwise the placement is `top` when `vertical` is
unset/false; otherwise it is `left` when the layout direction is rtl and
`right` otherwise. -/
theorem getTooltipPlacement_spec (dir : Direction) (tp : Option Placement) (v : Option Bool) :
    (∀ p, tp = some p → getTooltipPlacement dir tp v = p) ∧
    (tp = none → truthy v = false → getTooltipPlacement dir tp v = .top) ∧
    (tp = none → truthy v = true → dir = .rtl → getTooltipPlacement dir tp v = .left) ∧
    (tp = none → truthy v = true → dir ≠ .rtl → getTooltipPlacement dir tp v = .right) := by
  refine ⟨?_, ?_, ?_, ?_⟩
  · rintro p rfl
    rfl
  · rintro rfl h
    simp [getTooltipPlacement, h]
  · rintro rfl h hd
    simp [getTooltipPlacement, h, hd]
  · rintro rfl h hd
    simp [getTooltipPlacement, h, hd]

/-- Witness for C5 at concrete inputs: all four branches. -/
theorem getTooltipPlacement_spec_witness :
    getTooltipPlacement .rtl none (some true) = .left ∧
    getTooltipPlacement .ltr none (some true) = .right ∧
    getTooltipPlacement .ltr none none = .top ∧
    getTooltipPlacement .rtl (some .bottom) (some true) = .bottom :=
  ⟨(getTooltipPlacement_spec .rtl none (some true)).2.2.1 rfl rfl rfl,
   (getTooltipPlacement_spec .ltr none (some true)).2.2.2 rfl rfl (by decide),
   (getTooltipPlacement_spec .ltr none none).2.1 rfl rfl,
   (getTooltipPlacement_spec .rtl (some .bottom) (some true)).1 .bottom rfl⟩

/-- C6: a hover-enter event on handle `i` produces a map whose entry `i` is
`true`, a hover-leave event produces entry `i` `false`, and in both cases every
entry at an index other than `i` is unchanged (these toggles, wired as the
handle's mouse-enter/leave callbacks, are the only state writes modelled by
`applyHandleEvent`). -/
theorem toggleTooltipVisible_spec (i : Nat) (m : Visibles) :
    applyHandleEvent (.mouseEnter i) m i = some true ∧
    applyHandleEvent (.mouseLeave i) m i = some false ∧
    (∀ j, j ≠ i → applyHandleEvent (.mouseEnter i) m j = m j ∧
      applyHandleEvent (.mouseLeave i) m j = m j) := by
  refine ⟨?_, ?_, ?_⟩
  · simp [applyHandleEvent, toggleTooltipVisible]
  · simp [applyHandleEvent, toggleTooltipVisible]
  · intro j hj
    constructor <;> simp [applyHandleEvent, toggleTooltipVisible, hj]

/-- Witness for C6 at handle index 2 on the empty map, other index 0. -/
theorem toggleTooltipVisible_spec_witness :
    applyHandleEvent (.mouseEnter 2) emptyVisibles 2 = some true ∧
    applyHandleEvent (.mouseLeave 2) emptyVisibles 2 = some false ∧
    applyHandleEvent (.mouseEnter 2) emptyVisibles 0 = emptyVisibles 0 :=
  ⟨(toggleTooltipVisible_spec 2 emptyVisibles).1,
   (toggleTooltipVisible_spec 2 emptyVisibles).2.1,
   ((toggleTooltipVisible_spec 2 emptyVisibles).2.2 0 (by decide)).1⟩

/-- C7: the default value formatter renders a numeric input as its decimal
string form (input 5 yields "5") and renders the undefined input as the empty
string. -/
theorem defaultTipFormatter_spec :
    defaultTipFormatter (some 5) = "5" ∧
    (∀ n : Int, defaultTipFormatter (some n) = toString n) ∧
    defaultTipFormatter none = "" := by
  refine ⟨by decide, fun n => rfl, rfl⟩

theorem applyHandleEvent_presence (e : HandleEvent) (m : Visibles) (i : Nat)
    (h : (m i).isSome = true) : ((applyHandleEvent e m) i).isSome = true := by
  cases e with
  | mouseEnter k =>
    by_cases hik : i = k <;> simp [applyHandleEvent, toggleTooltipVisible, hik, h]
  | mouseLeave k =>
    by_cases hik : i = k <;> simp [applyHandleEvent, toggleTooltipVisible, hik, h]

theorem applyHandleEvent_target (e : HandleEvent) (m : Visibles) :
    ((applyHandleEvent e m) e.targetIndex).isSome = true := by
  cases e <;> simp [applyHandleEvent, toggleTooltipVisible, HandleEvent.targetIndex]

/-- C10: the set of indices present in the visibility map never shrinks: a
hover-leave writes `false` rather than deleting the entry, so any index present
before a sequence of events is present after it, and every index targeted by
some event in the sequence is a key of the final map. -/
theorem visibles_keys_monotone (evs : List HandleEvent) (m : Visibles) (i : Nat) :
    ((m i).isSome = true → ((applyHandleEvents evs m) i).isSome = true) ∧
    (i ∈ evs.map HandleEvent.targetIndex → ((applyHandleEvents evs m) i).isSome = true) := by
  induction evs generalizing m with
  | nil =>
    constructor
    · intro h
      simpa [applyHandleEvents] using h
    · intro h
      simp at h
  | cons e rest ih =>
    have hstep : applyHandleEvents (e :: rest) m = applyHandleEvents rest (applyHandleEvent e m) :=
      rfl
    constructor
    · intro h
      rw [hstep]
      exact (ih (applyHandleEvent e m)).1 (applyHandleEvent_presence e m i h)
    · intro hmem
      rw [hstep]
      rw [List.map_cons] at hmem
      rcases List.mem_cons.mp hmem with h | h
      · exact (ih (applyHandleEvent e m)).1 (by rw [h]; exact applyHandleEvent_target e m)
      · exact (ih (applyHandleEvent e m)).2 h

/-- Witness for C10: after hovering and then leaving handle 2 starting from the
empty map, index 2 is still a key of the map. -/
theorem visibles_keys_monotone_witness :
    ((applyHandleEvents [.mouseEnter 2, .mouseLeave 2] emptyVisibles) 2).isSome = true :=
  (visibles_keys_monotone [.mouseEnter 2, .mouseLeave 2] emptyVisibles 2).2 (by decide)

theorem applyRtlReverse_callerProps (ctx : ConfigContext) (props : SliderProps) :
    (applyRtlReverse ctx (initObjects props)).callerProps = props := by
  unfold applyRtlReverse initObjects
  split <;> rfl

theorem applyRtlReverse_reverse (ctx : ConfigContext) (props : SliderProps) :
    (applyRtlReverse ctx (initObjects props)).restProps.reverse =
      (if ctx.direction = .rtl && !truthy props.vertical then some (!truthy props.reverse)
       else props.reverse) := by
  by_cases h : (decide (ctx.direction = Direction.rtl) && !truthy props.vertical) = true
  · simp [applyRtlReverse, initObjects, destructRest, h]
  · simp [applyRtlReverse, initObjects, destructRest, h]

theorem applyRtlReverse_step (ctx : ConfigContext) (props : SliderProps) :
    (applyRtlReverse ctx (initObjects props)).restProps.step = props.step := by
  unfold applyRtlReverse initObjects destructRest
  split <;> rfl

theorem renderSlider_forwarded_reverse (ctx : ConfigContext) (props : SliderProps) :
    (renderSlider ctx props).forwarded.reverse =
      (applyRtlReverse ctx (initObjects props)).restProps.reverse := by
  unfold renderSlider
  by_cases h : props.range.truthy = true <;> simp [h, buildForwarded, Rendered.forwarded]

theorem renderSlider_forwarded_step (ctx : ConfigContext) (props : SliderProps) :
    (renderSlider ctx props).forwarded.step = props.step := by
  unfold renderSlider
  by_cases h : props.range.truthy = true <;>
    simp [h, buildForwarded, Rendered.forwarded, applyRtlReverse_step]

/-- C2: the `reverse` flag forwarded to the underlying primitive is (at JS
truthiness) the caller-supplied `reverse` XOR (direction is rtl AND `vertical`
is unset/false); and whenever `vertical` is truthy the forwarded value is the
caller's `reverse` unchanged, regardless of direction. -/
theorem renderSlider_reverse_spec (ctx : ConfigContext) (props : SliderProps) :
    truthy (renderSlider ctx props).forwarded.reverse =
      ((truthy props.reverse).xor
        (decide (ctx.direction = .rtl) && !truthy props.vertical)) ∧
    (truthy props.vertical = true →
      (renderSlider ctx props).forwarded.reverse = props.reverse) := by
  constructor
  · rw [renderSlider_forwarded_reverse, applyRtlReverse_reverse]
    by_cases h : (decide (ctx.direction = Direction.rtl) && !truthy props.vertical) = true
    · rw [if_pos h, h, truthy_some]
      simp
    · simp only [Bool.not_eq_true] at h
      rw [if_neg (by simp [h]), h]
      simp
  · intro hv
    rw [renderSlider_forwarded_reverse, applyRtlReverse_reverse]
    simp [hv]

/-- Witness for C2: rtl + vertical gives the caller's `reverse` back unchanged. -/
theorem renderSlider_reverse_spec_witness :
    (renderSlider ⟨"ant", .rtl, none⟩
        ({ reverse := some true, vertical := some true } : SliderProps)).forwarded.reverse =
      some true :=
  (renderSlider_reverse_spec ⟨"ant", .rtl, none⟩
    ({ reverse := some true, vertical := some true } : SliderProps)).2 rfl

/-- C3: when the `range` option is absent or `false`, the rendered primitive is
the single-value variant and the `step` option is forwarded to it verbatim,
including the value `null`. -/
theorem renderSlider_single_spec (ctx : ConfigContext) (props : SliderProps)
    (h : props.range = .unset ∨ props.range = .boolFalse) :
    (renderSlider ctx props).isSingle = true ∧
    (renderSlider ctx props).forwarded.step = props.step := by
  have ht : props.range.truthy = false := by
    rcases h with h | h <;> simp [h, RangeProp.truthy]
  refine ⟨?_, renderSlider_forwarded_step ctx props⟩
  simp [renderSlider, ht, Rendered.isSingle]

/-- Witness for C3: the default configuration with `step := null` renders the
single primitive and forwards `null`. -/
theorem renderSlider_single_spec_witness :
    (renderSlider ⟨"ant", .ltr, none⟩ ({ step := .null } : SliderProps)).isSingle = true ∧
    (renderSlider ⟨"ant", .ltr, none⟩ ({ step := .null } : SliderProps)).forwarded.step = .null :=
  renderSlider_single_spec ⟨"ant", .ltr, none⟩ ({ step := .null } : SliderProps) (Or.inl rfl)

/-- C4: when the `range` option is `true` or an object, the rendered primitive
is the range variant; for an object the forwarded `draggableTrack` is the
object's `draggableTrack` sub-option, and for the boolean `true` it is
undefined. -/
theorem renderSlider_range_spec (ctx : ConfigContext) (props : SliderProps) :
    (props.range = .boolTrue →
      (renderSlider ctx props).isRange = true ∧
      (renderSlider ctx props).draggableTrack = none) ∧
    (∀ d, props.range = .obj d →
      (renderSlider ctx props).isRange = true ∧
      (renderSlider ctx props).draggableTrack = d) := by
  constructor
  · intro h
    constructor <;>
      simp [renderSlider, h, RangeProp.truthy, Rendered.isRange, Rendered.draggableTrack]
  · intro d h
    constructor <;>
      simp [renderSlider, h, RangeProp.truthy, Rendered.isRange, Rendered.draggableTrack]

/-- Witness for C4: `range = \x7b draggableTrack: true \x7d` renders the range
primitive with `draggableTrack = true`; `range = true` renders it with
`draggableTrack` undefined. -/
theorem renderSlider_range_spec_witness :
    (renderSlider ⟨"ant", .ltr, none⟩
        ({ range := .obj (some true) } : SliderProps)).isRange = true ∧
    (renderSlider ⟨"ant", .ltr, none⟩
        ({ range := .obj (some true) } : SliderProps)).draggableTrack = some true ∧
    (renderSlider ⟨"ant", .ltr, none⟩
        ({ range := .boolTrue } : SliderProps)).draggableTrack = none :=
  ⟨((renderSlider_range_spec ⟨"ant", .ltr, none⟩
      ({ range := .obj (some true) } : SliderProps)).2 (some true) rfl).1,
   ((renderSlider_range_spec ⟨"ant", .ltr, none⟩
      ({ range := .obj (some true) } : SliderProps)).2 (some true) rfl).2,
   ((renderSlider_range_spec ⟨"ant", .ltr, none⟩
      ({ range := .boolTrue } : SliderProps)).1 rfl).2⟩

/-- C9: the caller's props object is never mutated by the render pass: the
rtl reverse inversion targets the fresh `restProps` object created by
rest-destructuring, so after rendering every field of the caller's object,
including `reverse`, holds its original value. -/
theorem renderPass_props_unchanged (ctx : ConfigContext) (props : SliderProps) :
    (renderPass ctx props).1 = props ∧ (renderPass ctx props).1.reverse = props.reverse := by
  have h : (renderPass ctx props).1 = props := applyRtlReverse_callerProps ctx props
  exact ⟨h, by rw [h]⟩

/-- C8: every entry of the caller-supplied `tooltipProps` bag overrides the
same-named computed tooltip attribute (prefixCls, title, visible, placement,
overlayClassName, getPopupContainer); `transitionName`, written after the bag
spread, is always the value computed by `getTransitionName` from the ambient
root prefix and the fixed identifier "zoom-down" — which itself returns the
bag's `transitionName` when the bag supplies one, so that value wins. -/
theorem handleWithTooltip_bag_spec (ctx : ConfigContext) (props : SliderProps) (vis : Visibles)
    (tpc pc : String) (info : HandleGeneratorInfo) :
    (∀ v, props.tooltipProps.prefixCls = some v →
      (handleWithTooltip ctx props vis tpc pc info).prefixCls = v) ∧
    (∀ v, props.tooltipProps.title = some v →
      (handleWithTooltip ctx props vis tpc pc info).title = v) ∧
    (∀ v, props.tooltipProps.visible = some v →
      (handleWithTooltip ctx props vis tpc pc info).visible = some v) ∧
    (∀ v, props.tooltipProps.placement = some v →
      (handleWithTooltip ctx props vis tpc pc info).placement = v) ∧
    (∀ v, props.tooltipProps.overlayClassName = some v →
      (handleWithTooltip ctx props vis tpc pc info).overlayClassName = v) ∧
    (∀ v, props.tooltipProps.getPopupContainer = some v →
      (handleWithTooltip ctx props vis tpc pc info).getPopupContainer = some v) ∧
    (handleWithTooltip ctx props vis tpc pc info).transitionName =
      getTransitionName ctx.rootPrefixCls "zoom-down" props.tooltipProps.transitionName ∧
    (∀ v, props.tooltipProps.transitionName = some v →
      (handleWithTooltip ctx props vis tpc pc info).transitionName = v) ∧
    (props.tooltipProps.transitionName = none →
      (handleWithTooltip ctx props vis tpc pc info).transitionName =
        ctx.rootPrefixCls ++ "-zoom-down") := by
  refine ⟨?_, ?_, ?_, ?_, ?_, ?_, rfl, ?_, ?_⟩
  · intro v h
    simp [handleWithTooltip, h]
  · intro v h
    simp [handleWithTooltip, h]
  · intro v h
    simp [handleWithTooltip, h]
  · intro v h
    simp [handleWithTooltip, h]
  · intro v h
    simp [handleWithTooltip, h]
  · intro v h
    simp [handleWithTooltip, h]
  · intro v h
    simp [handleWithTooltip, getTransitionName, h]
  · intro h
    simp only [handleWithTooltip, getTransitionName, h, Option.getD_none]
    rw [String.append_assoc]
    exact congrArg (ctx.rootPrefixCls ++ ·) (by decide)

/-- Witness for C8: a bag supplying every field wins on all spread fields and
on `transitionName`; an empty bag yields the computed `transitionName`. -/
theorem handleWithTooltip_bag_spec_witness :
    (handleWithTooltip ⟨"ant", .ltr, none⟩
        ({ tooltipProps :=
            { prefixCls := some "P", title := some "T", visible := some false,
              placement := some .bottom, overlayClassName := some "O",
              getPopupContainer := some 7,
              transitionName := some "fade" } } : SliderProps)
        emptyVisibles "ant-tooltip" "ant-slider" ⟨some 1, none, 0⟩).prefixCls = "P" ∧
    (handleWithTooltip ⟨"ant", .ltr, none⟩
        ({ tooltipProps :=
            { prefixCls := some "P", title := some "T", visible := some false,
              placement := some .bottom, overlayClassName := some "O",
              getPopupContainer := some 7,
              transitionName := some "fade" } } : SliderProps)
        emptyVisibles "ant-tooltip" "ant-slider" ⟨some 1, none, 0⟩).title = "T" ∧
    (handleWithTooltip ⟨"ant", .ltr, none⟩
        ({ tooltipProps :=
            { prefixCls := some "P", title := some "T", visible := some false,
              placement := some .bottom, overlayClassName := some "O",
              getPopupContainer := some 7,
              transitionName := some "fade" } } : SliderProps)
        emptyVisibles "ant-tooltip" "ant-slider" ⟨some 1, none, 0⟩).visible = some false ∧
    (handleWithTooltip ⟨"ant", .ltr, none⟩
        ({ tooltipProps :=
            { prefixCls := some "P", title := some "T", visible := some false,
              placement := some .bottom, overlayClassName := some "O",
              getPopupContainer := some 7,
              transitionName := some "fade" } } : SliderProps)
        emptyVisibles "ant-tooltip" "ant-slider" ⟨some 1, none, 0⟩).placement = .bottom ∧
    (handleWithTooltip ⟨"ant", .ltr, none⟩
        ({ tooltipProps :=
            { prefixCls := some "P", title := some "T", visible := some false,
              placement := some .bottom, overlayClassName := some "O",
              getPopupContainer := some 7,
              transitionName := some "fade" } } : SliderProps)
        emptyVisibles "ant-tooltip" "ant-slider" ⟨some 1, none, 0⟩).overlayClassName = "O" ∧
    (handleWithTooltip ⟨"ant", .ltr, none⟩
        ({ tooltipProps :=
            { prefixCls := some "P", title := some "T", visible := some false,
              placement := some .bottom, overlayClassName := some "O",
              getPopupContainer := some 7,
              transitionName := some "fade" } } : SliderProps)
        emptyVisibles "ant-tooltip" "ant-slider" ⟨some 1, none, 0⟩).getPopupContainer = some 7 ∧
    (handleWithTooltip ⟨"ant", .ltr, none⟩
        ({ tooltipProps :=
            { prefixCls := some "P", title := some "T", visible := some false,
              placement := some .bottom, overlayClassName := some "O",
              getPopupContainer := some 7,
              transitionName := some "fade" } } : SliderProps)
        emptyVisibles "ant-tooltip" "ant-slider" ⟨some 1, none, 0⟩).transitionName = "fade" ∧
    (handleWithTooltip ⟨"ant", .ltr, none⟩ ({} : SliderProps)
        emptyVisibles "ant-tooltip" "ant-slider" ⟨some 1, none, 0⟩).transitionName =
      "ant-zoom-down" :=
  ⟨(handleWithTooltip_bag_spec ⟨"ant", .ltr, none⟩ _ emptyVisibles "ant-tooltip" "ant-slider"
      ⟨some 1, none, 0⟩).1 "P" rfl,
   (handleWithTooltip_bag_spec ⟨"ant", .ltr, none⟩ _ emptyVisibles "ant-tooltip" "ant-slider"
      ⟨some 1, none, 0⟩).2.1 "T" rfl,
   (handleWithTooltip_bag_spec ⟨"ant", .ltr, none⟩ _ emptyVisibles "ant-tooltip" "ant-slider"
      ⟨some 1, none, 0⟩).2.2.1 false rfl,
   (handleWithTooltip_bag_spec ⟨"ant", .ltr, none⟩ _ emptyVisibles "ant-tooltip" "ant-slider"
      ⟨some 1, none, 0⟩).2.2.2.1 .bottom rfl,
   (handleWithTooltip_bag_spec ⟨"ant", .ltr, none⟩ _ emptyVisibles "ant-tooltip" "ant-slider"
      ⟨some 1, none, 0⟩).2.2.2.2.1 "O" rfl,
   (handleWithTooltip_bag_spec ⟨"ant", .ltr, none⟩ _ emptyVisibles "ant-tooltip" "ant-slider"
      ⟨some 1, none, 0⟩).2.2.2.2.2.1 7 rfl,
   (handleWithTooltip_bag_spec ⟨"ant", .ltr, none⟩ _ emptyVisibles "ant-tooltip" "ant-slider"
      ⟨some 1, none, 0⟩).2.2.2.2.2.2.2.1 "fade" rfl,
   (handleWithTooltip_bag_spec ⟨"ant", .ltr, none⟩ ({} : SliderProps) emptyVisibles
      "ant-tooltip" "ant-slider" ⟨some 1, none, 0⟩).2.2.2.2.2.2.2.2 rfl⟩
